import Mathlib

/-!
Verification of the conversation-session core and message router of a
Telegram ↔ Google Assistant bridge (`telegramassistant.py`), as a shallow
embedding in Lean.

Bytes are modelled as `List Nat`; Python `None` for the stored conversation
state is `Option`; a gRPC response stream is modelled as the list of response
messages that were successfully yielded, followed by an optional stream error
(the exception the iterator raised after those messages, if any).
-/

namespace TelegramAssistant

/-- Audio output parameters carried by every request (fixed by the client). -/
structure AudioOutConfig where
  encoding : String
  sample_rate_hertz : Nat
  volume_percentage : Nat
  deriving DecidableEq, Repr

/-- `DialogStateIn` of the outbound request: language code and the
conversation-state bytes echoed back to the service. -/
structure DialogStateIn where
  language_code : String
  conversation_state : List Nat
  deriving DecidableEq, Repr

/-- Device identifiers presented on every turn. -/
structure DeviceConfig where
  device_id : String
  device_model_id : String
  deriving DecidableEq, Repr

/-- The `AssistConfig` proto of the outbound request. -/
structure AssistConfig where
  audio_out_config : AudioOutConfig
  dialog_state_in : DialogStateIn
  device_config : DeviceConfig
  text_query : String
  deriving DecidableEq, Repr

/-- The outbound request (`AssistRequest(config=config)`). -/
structure AssistRequest where
  config : AssistConfig
  deriving DecidableEq, Repr

/-- `DialogStateOut` of an inbound response message: a (possibly empty)
conversation-state token and a (possibly empty) supplemental display text.
In proto3 an unset string field reads as `""` and unset bytes as `b''`. -/
structure DialogStateOut where
  conversation_state : List Nat
  supplemental_display_text : String
  deriving DecidableEq, Repr

/-- One inbound response message of the stream. -/
structure AssistResponse where
  dialog_state_out : DialogStateOut
  deriving DecidableEq, Repr

/-- The session object: `SampleTextAssistant.__init__` sets
`language_code`, `device_model_id`, `device_id`,
`conversation_state = None`, and `deadline = deadline_sec`. -/
structure SampleTextAssistant where
  language_code : String
  device_model_id : String
  device_id : String
  conversation_state : Option (List Nat)
  deadline : Nat
  deriving DecidableEq, Repr

/-- Errors a response stream can raise after yielding its messages
(gRPC deadline expiry or a service-reported error). -/
inductive StreamError where
  | deadlineExceeded
  | remoteServiceError
  deriving DecidableEq, Repr

/-- Python truthiness of the stored conversation state: `None` and `b''`
are falsy, non-empty bytes are truthy. -/
def pyTruthyState : Option (List Nat) → Bool
  | none => false
  | some cs => !cs.isEmpty

/-- The single request yielded by `iter_assist_requests` inside
`SampleTextAssistant.assist`: `conversation_state` starts as `b''` and is
overwritten with `self.conversation_state` when that is truthy. -/
def iter_assist_requests (s : SampleTextAssistant) (text_query : String) :
    AssistRequest :=
  { config :=
    { audio_out_config :=
      { encoding := "LINEAR16"
        sample_rate_hertz := 16000
        volume_percentage := 0 }
      dialog_state_in :=
      { language_code := s.language_code
        conversation_state :=
          if pyTruthyState s.conversation_state then
            s.conversation_state.getD []
          else [] }
      device_config :=
      { device_id := s.device_id
        device_model_id := s.device_model_id }
      text_query := text_query } }

/-- The body of the response loop in `SampleTextAssistant.assist` for one
message: if `resp.dialog_state_out.conversation_state` is truthy (non-empty)
overwrite the stored token; if `resp.dialog_state_out.supplemental_display_text`
is truthy (non-empty) overwrite the candidate `display_text`.
The accumulator is `(display_text, self.conversation_state)`. -/
def processResponse (acc : Option String × Option (List Nat))
    (resp : AssistResponse) : Option String × Option (List Nat) :=
  let acc1 :=
    if !resp.dialog_state_out.conversation_state.isEmpty then
      (acc.1, some resp.dialog_state_out.conversation_state)
    else acc
  if resp.dialog_state_out.supplemental_display_text ≠ "" then
    (some resp.dialog_state_out.supplemental_display_text, acc1.2)
  else acc1

/-- Observable outcome of one `SampleTextAssistant.assist` call: the request
it sent on the stream, the returned value (or the exception that propagated),
and the session object after the call. -/
structure AssistCall where
  request : AssistRequest
  result : Except StreamError (Option String)
  state : SampleTextAssistant
  deriving Repr

/-- `SampleTextAssistant.assist`: builds one request from `text_query` (via
`iter_assist_requests`) and sends it, then drains the response stream updating
`display_text` and `self.conversation_state` message by message, and returns
`display_text`.  `responses` is the list of messages the stream yielded and
`streamError` the exception it then raised, if any; on an exception the
partial `display_text` is discarded (the exception propagates) but the
mutations of `self.conversation_state` already performed persist. -/
def assist (s : SampleTextAssistant) (text_query : String)
    (responses : List AssistResponse) (streamError : Option StreamError) :
    AssistCall :=
  let folded := responses.foldl processResponse (none, s.conversation_state)
  let s' := { s with conversation_state := folded.2 }
  { request := iter_assist_requests s text_query
    result :=
      match streamError with
      | none => Except.ok folded.1
      | some e => Except.error e
    state := s' }

/-- Python `s.startswith(p)`, computed on the underlying character lists. -/
def isPrefixCharList : List Char → List Char → Bool
  | [], _ => true
  | _ :: _, [] => false
  | a :: as, b :: bs => a = b && isPrefixCharList as bs

/-- Python `message.text.startswith('@%s' % bot.username)`. -/
def pyStartsWith (s p : String) : Bool := isPrefixCharList p.toList s.toList

/-- Split a character list at the first space: `none` when no space occurs. -/
def splitAtFirstSpace : List Char → Option (List Char × List Char)
  | [] => none
  | c :: cs =>
    if c = ' ' then some ([], cs)
    else (splitAtFirstSpace cs).map (fun p => (c :: p.1, p.2))

/-- Python `text.split(' ', 1)`: the part before the first space, and
`some` remainder when a space occurs (the remainder may be `""`, e.g. for a
trailing space), `none` when the text has no space (list of length 1). -/
def pySplitOnce (s : String) : String × Option String :=
  match splitAtFirstSpace s.toList with
  | none => (s, none)
  | some p => (String.mk p.1, some (String.mk p.2))

/-- Running a sequence of error-free turns on a session: each turn feeds the
session object produced by the previous `assist` call into the next. -/
def runTurns (s : SampleTextAssistant) (ts : List (String × List AssistResponse)) :
    SampleTextAssistant :=
  ts.foldl (fun st t => (assist st t.1 t.2 none).state) s

/-- The request sent in turn `k` (0-based) of a sequence of turns started on
session `s0`: `assist` builds it from the session state left by turns
`0 .. k-1`. -/
def requestOfTurn (s0 : SampleTextAssistant)
    (ts : List (String × List AssistResponse)) (k : Nat) : AssistRequest :=
  (assist (runTurns s0 (ts.take k)) (ts.getD k ("", [])).1
    (ts.getD k ("", [])).2 none).request

/-- Display-text component of the response-processing step: a message's
non-empty `supplemental_display_text` supersedes the candidate, an empty one
leaves it. -/
def stepText (dt : Option String) (resp : AssistResponse) : Option String :=
  if resp.dialog_state_out.supplemental_display_text ≠ "" then
    some resp.dialog_state_out.supplemental_display_text
  else dt

/-- Token component of the response-processing step: a message's non-empty
`conversation_state` overwrites the stored token, an empty one leaves it. -/
def stepToken (cs : Option (List Nat)) (resp : AssistResponse) :
    Option (List Nat) :=
  if !resp.dialog_state_out.conversation_state.isEmpty then
    some resp.dialog_state_out.conversation_state
  else cs

/-- The last non-empty `supplemental_display_text` among a list of response
messages, if any. -/
def lastNonEmptyText (responses : List AssistResponse) : Option String :=
  responses.foldl stepText none

/-- The last non-empty `conversation_state` token among a list of response
messages, if any. -/
def lastNonEmptyToken (responses : List AssistResponse) : Option (List Nat) :=
  responses.foldl stepToken none

/-- The last non-empty token across a whole sequence of turns, if any. -/
def lastTokenAcrossTurns (ts : List (String × List AssistResponse)) :
    Option (List Nat) :=
  ts.foldl
    (fun acc t =>
      match lastNonEmptyToken t.2 with
      | some tok => some tok
      | none => acc) none

/-- Configuration globals of the router: the bot's username and the
`ALLOWED_CHAT_IDS` / `AUTHORIZED_USER_IDS` environment lists. -/
structure BotConfig where
  bot_username : String
  allowed_chat_ids : List Int
  authorized_user_ids : List Int
  deriving DecidableEq, Repr

/-- One inbound Telegram message, with the fields the handler reads:
`message.chat.type`, `message.chat_id`, `message.from_user.id`,
`message.text`, and — for the `get_member` probe — the set of user ids that
are members of the chat (`get_member(user_id)` succeeds exactly for these,
raising `TelegramError` otherwise). -/
structure TelegramMessage where
  chat_type : String
  chat_id : Int
  from_user_id : Int
  text : String
  chat_member_ids : List Int
  deriving DecidableEq, Repr

/-- Observable side effects of the `assist` handler, in order of occurrence:
`replyText v` is a call `message.reply_text(v)` (`v = none` models passing
Python `None`), `askAssistant q` is a call `assistant.assist(text_query=q)`,
and `leaveChat` is `message.chat.leave()`. -/
inductive BotAction where
  | replyText (t : Option String)
  | askAssistant (q : String)
  | leaveChat
  deriving DecidableEq, Repr

/-- The `should_leave_chat` loop: it stays `True` exactly when
`chat.get_member(user_id)` raises for every id in `AUTHORIZED_USER_IDS`,
i.e. no authorized user is a member of the chat. -/
def shouldLeaveChat (cfg : BotConfig) (m : TelegramMessage) : Bool :=
  cfg.authorized_user_ids.all (fun u => !(m.chat_member_ids.contains u))

/-- The module-level `assist(bot, update)` message handler.  `ask` stands for
the shared `assistant.assist` call (query text in, optional display text
out); the handler's behaviour is returned as the ordered list of side
effects it performs. -/
def assistHandler (cfg : BotConfig) (ask : String → Option String)
    (m : TelegramMessage) : List BotAction :=
  if m.chat_type = "private" then
    if !(cfg.authorized_user_ids.contains m.from_user_id) then
      [BotAction.replyText (some "Unauthorized")]
    else
      [BotAction.askAssistant m.text, BotAction.replyText (ask m.text)]
  else if pyStartsWith m.text ("@" ++ cfg.bot_username) then
    match pySplitOnce m.text with
    | (_, some message_text) =>
      BotAction.askAssistant message_text ::
      (if !(cfg.allowed_chat_ids.contains m.chat_id)
          && !(cfg.authorized_user_ids.contains m.from_user_id) then
        BotAction.replyText (some "Unauthorized") ::
        (if shouldLeaveChat cfg m then [BotAction.leaveChat] else [])
      else
        match ask message_text with
        | some t => [BotAction.replyText (some t)]
        | none => [])
    | (_, none) => []
  else []

lemma processResponse_eq (acc : Option String × Option (List Nat))
    (resp : AssistResponse) :
    processResponse acc resp = (stepText acc.1 resp, stepToken acc.2 resp) := by
  simp only [processResponse, stepText, stepToken]
  by_cases h1 : !resp.dialog_state_out.conversation_state.isEmpty <;>
    by_cases h2 : resp.dialog_state_out.supplemental_display_text ≠ "" <;>
      simp [h1, h2]

lemma foldl_processResponse (rs : List AssistResponse) (dt : Option String)
    (cs : Option (List Nat)) :
    rs.foldl processResponse (dt, cs) =
      (rs.foldl stepText dt, rs.foldl stepToken cs) := by
  induction rs generalizing dt cs with
  | nil => rfl
  | cons r rs ih =>
    rw [List.foldl_cons, List.foldl_cons, List.foldl_cons, processResponse_eq]
    exact ih _ _

lemma foldl_step_carry {α β : Type} (f : Option α → β → Option α)
    (hf : ∀ a b, f a b = (f none b).elim a some)
    (l : List β) (a : Option α) :
    l.foldl f a = (l.foldl f none).elim a some := by
  induction l generalizing a with
  | nil => rfl
  | cons b l ih =>
    rw [List.foldl_cons, List.foldl_cons, ih, ih (f none b)]
    cases hx : l.foldl f none with
    | some t => rfl
    | none => simpa [Option.elim] using hf a b

lemma stepText_carry (dt : Option String) (resp : AssistResponse) :
    stepText dt resp = (stepText none resp).elim dt some := by
  simp only [stepText]
  split <;> rfl

lemma stepToken_carry (cs : Option (List Nat)) (resp : AssistResponse) :
    stepToken cs resp = (stepToken none resp).elim cs some := by
  simp only [stepToken]
  split <;> rfl

lemma foldl_stepText (rs : List AssistResponse) (dt : Option String) :
    rs.foldl stepText dt = (lastNonEmptyText rs).elim dt some :=
  foldl_step_carry stepText stepText_carry rs dt

lemma foldl_stepToken (rs : List AssistResponse) (cs : Option (List Nat)) :
    rs.foldl stepToken cs = (lastNonEmptyToken rs).elim cs some :=
  foldl_step_carry stepToken stepToken_carry rs cs

/-- Characterization of the returned value of an error-free `assist` call:
it is the last non-empty display text of the stream. -/
lemma assist_result (s : SampleTextAssistant) (q : String)
    (rs : List AssistResponse) :
    (assist s q rs none).result = Except.ok (lastNonEmptyText rs) := by
  simp only [assist, foldl_processResponse, lastNonEmptyText]

/-- On a stream error, `assist` surfaces exactly that error. -/
lemma assist_result_err (s : SampleTextAssistant) (q : String)
    (rs : List AssistResponse) (e : StreamError) :
    (assist s q rs (some e)).result = Except.error e := by
  simp only [assist]

/-- Characterization of the session after an `assist` call (with or without a
stream error): only `conversation_state` changes, and it becomes the last
non-empty token of the consumed messages, the previous value if none. -/
lemma assist_state (s : SampleTextAssistant) (q : String)
    (rs : List AssistResponse) (err : Option StreamError) :
    (assist s q rs err).state =
      { s with conversation_state :=
          (lastNonEmptyToken rs).elim s.conversation_state some } := by
  simp only [assist, foldl_processResponse, foldl_stepToken]

lemma lastTokenAcrossTurns_carry (ts : List (String × List AssistResponse))
    (a : Option (List Nat)) :
    ts.foldl
      (fun acc t =>
        match lastNonEmptyToken t.2 with
        | some tok => some tok
        | none => acc) a = (lastTokenAcrossTurns ts).elim a some := by
  refine foldl_step_carry _ (fun a t => ?_) ts a
  cases lastNonEmptyToken t.2 <;> rfl

/-- The stored token after a sequence of error-free turns is the last
non-empty token received across all of them, the initial value if none. -/
lemma runTurns_conversation_state (s : SampleTextAssistant)
    (ts : List (String × List AssistResponse)) :
    (runTurns s ts).conversation_state =
      (lastTokenAcrossTurns ts).elim s.conversation_state some := by
  induction ts generalizing s with
  | nil => rfl
  | cons t ts ih =>
    show (runTurns (assist s t.1 t.2 none).state ts).conversation_state = _
    rw [ih, assist_state]
    have h : lastTokenAcrossTurns (t :: ts) =
        (lastTokenAcrossTurns ts).elim
          (match lastNonEmptyToken t.2 with
           | some tok => some tok
           | none => none) some := by
      show List.foldl _ _ ts = _
      rw [lastTokenAcrossTurns_carry]
    rw [h]
    cases lastTokenAcrossTurns ts with
    | some tok => rfl
    | none => cases lastNonEmptyToken t.2 <;> rfl

/-- A recorded last non-empty token is in fact non-empty. -/
lemma lastNonEmptyToken_ne_nil (rs : List AssistResponse) (tok : List Nat)
    (h : lastNonEmptyToken rs = some tok) : ¬tok.isEmpty := by
  induction rs generalizing tok with
  | nil => exact absurd h (by simp [lastNonEmptyToken])
  | cons r rs ih =>
    rw [lastNonEmptyToken, List.foldl_cons, foldl_stepToken] at h
    cases hx : lastNonEmptyToken rs with
    | some t =>
      rw [hx] at h
      simp only [Option.elim, Option.some.injEq] at h
      exact h ▸ ih t hx
    | none =>
      rw [hx] at h
      simp only [Option.elim] at h
      rw [stepToken] at h
      by_cases hc : !r.dialog_state_out.conversation_state.isEmpty
      · simp only [hc, if_pos] at h
        cases h
        simpa using hc
      · simp [hc] at h


lemma lastTokenAcrossTurns_append (ts : List (String × List AssistResponse))
    (t : String × List AssistResponse) :
    lastTokenAcrossTurns (ts ++ [t]) =
      match lastNonEmptyToken t.2 with
      | some tok => some tok
      | none => lastTokenAcrossTurns ts := by
  unfold lastTokenAcrossTurns
  rw [List.foldl_append]
  rfl

lemma lastTokenAcrossTurns_eq_none (ts : List (String × List AssistResponse))
    (h : ∀ t ∈ ts, lastNonEmptyToken t.2 = none) :
    lastTokenAcrossTurns ts = none := by
  induction ts with
  | nil => rfl
  | cons t ts ih =>
    show List.foldl _
      (match lastNonEmptyToken t.2 with
       | some tok => some tok
       | none => none) ts = none
    rw [h t (by simp)]
    exact ih fun x hx => h x (by simp [hx])

lemma lastNonEmptyText_eq_none (rs : List AssistResponse)
    (h : ∀ r ∈ rs, r.dialog_state_out.supplemental_display_text = "") :
    lastNonEmptyText rs = none := by
  induction rs with
  | nil => rfl
  | cons r rs ih =>
    show List.foldl stepText (stepText none r) rs = none
    have hr : stepText none r = none := by simp [stepText, h r (by simp)]
    rw [hr]
    exact ih fun x hx => h x (by simp [hx])

lemma requestOfTurn_state (s0 : SampleTextAssistant)
    (ts : List (String × List AssistResponse)) (k : Nat) :
    (requestOfTurn s0 ts k).config.dialog_state_in.conversation_state =
      if pyTruthyState (runTurns s0 (ts.take k)).conversation_state then
        (runTurns s0 (ts.take k)).conversation_state.getD []
      else [] := rfl

lemma splitAtFirstSpace_eq (l : List Char) (a b : List Char)
    (h : splitAtFirstSpace l = some (a, b)) :
    a ++ ' ' :: b = l ∧ ' ' ∉ a := by
  induction l generalizing a b with
  | nil => exact absurd h (by simp [splitAtFirstSpace])
  | cons c cs ih =>
    rw [splitAtFirstSpace] at h
    by_cases hc : c = ' '
    · rw [if_pos hc] at h
      cases h
      subst hc
      exact ⟨rfl, by simp⟩
    · rw [if_neg hc] at h
      cases hcs : splitAtFirstSpace cs with
      | none => rw [hcs] at h; cases h
      | some p =>
        rw [hcs] at h
        simp only [Option.map, Option.some.injEq, Prod.mk.injEq] at h
        obtain ⟨ha, hb⟩ := h
        obtain ⟨ih1, ih2⟩ := ih p.1 p.2 (by rw [hcs])
        subst ha
        subst hb
        refine ⟨by rw [List.cons_append, ih1], ?_⟩
        intro hmem
        rcases List.mem_cons.mp hmem with h1 | h1
        · exact hc h1.symm
        · exact ih2 h1

/-- Claim C1 (confirmed): on one fresh `SampleTextAssistant` session, the
`conversation_state` bytes placed in turn `k`'s outbound request are empty
for the first turn; equal the last non-empty token received among the
previous turn's response messages whenever that turn received one; and are
empty when no non-empty token was received in any earlier turn. -/
theorem C1_state_threading (s0 : SampleTextAssistant)
    (h0 : s0.conversation_state = none)
    (ts : List (String × List AssistResponse)) (k : Nat)
    (hk : k < ts.length) :
    (k = 0 →
      (requestOfTurn s0 ts k).config.dialog_state_in.conversation_state = [])
    ∧ (∀ j (hj : j < ts.length) (tok : List Nat), k = j + 1 →
        lastNonEmptyToken (ts.get ⟨j, hj⟩).2 = some tok →
        (requestOfTurn s0 ts k).config.dialog_state_in.conversation_state =
          tok)
    ∧ ((∀ t ∈ ts.take k, lastNonEmptyToken t.2 = none) →
        (requestOfTurn s0 ts k).config.dialog_state_in.conversation_state =
          []) := by
  have hrun := runTurns_conversation_state s0 (ts.take k)
  rw [h0] at hrun
  refine ⟨?_, ?_, ?_⟩
  · intro hk0
    subst hk0
    rw [requestOfTurn_state]
    rw [show runTurns s0 (ts.take 0) = s0 from rfl, h0]
    rfl
  · intro j hj tok hkj htok
    subst hkj
    rw [requestOfTurn_state]
    have htake : ts.take (j + 1) = ts.take j ++ [ts.get ⟨j, hj⟩] := by
      rw [List.take_succ, List.getElem?_eq_getElem hj]
      rfl
    have hlast : lastTokenAcrossTurns (ts.take (j + 1)) = some tok := by
      rw [htake, lastTokenAcrossTurns_append, htok]
    rw [hlast] at hrun
    simp only [Option.elim] at hrun
    rw [hrun]
    have hne : tok.isEmpty = false := by
      have := lastNonEmptyToken_ne_nil _ tok htok
      simpa using this
    simp [pyTruthyState, hne]
  · intro hnone
    rw [requestOfTurn_state]
    rw [lastTokenAcrossTurns_eq_none _ hnone] at hrun
    rw [hrun]
    rfl

/-- Witness for C1 on a concrete two-turn run: turn 0's only message carries
token `[9]`, so turn 1's outbound request carries `[9]`. -/
theorem C1_state_threading_witness :
    (requestOfTurn ⟨"en-US", "m", "d", none, 185⟩
        [("q1", [⟨⟨[9], "a"⟩⟩]), ("q2", [])]
        1).config.dialog_state_in.conversation_state = [9] :=
  (C1_state_threading ⟨"en-US", "m", "d", none, 185⟩ rfl
      [("q1", [⟨⟨[9], "a"⟩⟩]), ("q2", [])] 1 (by decide)).2.1
    0 (by decide) [9] rfl (by decide)

/-- Claim C2 is false on the code: a turn whose stream errors after a
message carrying a token surfaces the failure, but the stored
`conversation_state` (pre-call value `some [1]`) has already been
overwritten to `some [2]` by the consumed message. -/
theorem C2_counterexample :
    (assist ⟨"en-US", "m", "d", some [1], 185⟩ "q" [⟨⟨[2], ""⟩⟩]
        (some StreamError.remoteServiceError)).result =
      Except.error StreamError.remoteServiceError
    ∧ (assist ⟨"en-US", "m", "d", some [1], 185⟩ "q" [⟨⟨[2], ""⟩⟩]
        (some StreamError.remoteServiceError)).state.conversation_state =
      some [2]
    ∧ (assist ⟨"en-US", "m", "d", some [1], 185⟩ "q" [⟨⟨[2], ""⟩⟩]
        (some StreamError.remoteServiceError)).state.conversation_state ≠
      some [1] :=
  ⟨rfl, rfl, by decide⟩

/-- Claim C2 as amended: a failing turn surfaces the failure, and the stored
`conversation_state` equals the last non-empty token among the messages
consumed before the failure — it keeps its pre-call value only when none of
those messages carried a token. -/
theorem C2_token_on_failure (s : SampleTextAssistant) (q : String)
    (rs : List AssistResponse) (e : StreamError) :
    (assist s q rs (some e)).result = Except.error e
    ∧ (assist s q rs (some e)).state.conversation_state =
        (lastNonEmptyToken rs).elim s.conversation_state some := by
  refine ⟨assist_result_err s q rs e, ?_⟩
  rw [assist_state]

/-- Claim C4 (confirmed): if only the last message of a stream carries
display text, `assist` returns that text; a message without display text
never overwrites the candidate reply, and a later message's non-empty text
supersedes earlier candidates. -/
theorem C4_stream_draining (s : SampleTextAssistant) (q : String)
    (rs : List AssistResponse) (r : AssistResponse) :
    ((∀ x ∈ rs, x.dialog_state_out.supplemental_display_text = "") →
        r.dialog_state_out.supplemental_display_text ≠ "" →
        (assist s q (rs ++ [r]) none).result =
          Except.ok (some r.dialog_state_out.supplemental_display_text))
    ∧ (r.dialog_state_out.supplemental_display_text = "" →
        (assist s q (rs ++ [r]) none).result = (assist s q rs none).result)
    ∧ (r.dialog_state_out.supplemental_display_text ≠ "" →
        (assist s q (rs ++ [r]) none).result =
          Except.ok (some r.dialog_state_out.supplemental_display_text)) := by
  have happ : lastNonEmptyText (rs ++ [r]) =
      stepText (lastNonEmptyText rs) r := by
    unfold lastNonEmptyText
    rw [List.foldl_append]
    rfl
  refine ⟨fun _ hne => ?_, fun he => ?_, fun hne => ?_⟩ <;>
    simp [assist_result, happ, stepText, *]

/-- Witness for C4: a first message without text followed by one with text
`"done"` yields `"done"`. -/
theorem C4_stream_draining_witness :
    (assist ⟨"en-US", "m", "d", none, 185⟩ "q"
        [⟨⟨[], ""⟩⟩, ⟨⟨[], "done"⟩⟩] none).result =
      Except.ok (some "done") :=
  (C4_stream_draining ⟨"en-US", "m", "d", none, 185⟩ "q"
      [⟨⟨[], ""⟩⟩] ⟨⟨[], "done"⟩⟩).1 (by decide) (by decide)

/-- Claim C5 is false on the code for group chats: a group mention from a
chat not in `ALLOWED_CHAT_IDS` by a user not in `AUTHORIZED_USER_IDS` is
rejected with "Unauthorized", yet `assistant.assist` has already been
invoked for it. -/
theorem C5_counterexample :
    BotAction.askAssistant "hello" ∈
      assistHandler ⟨"bot", [5], [7]⟩ (fun _ => none)
        ⟨"group", 99, 42, "@bot hello", []⟩
    ∧ BotAction.replyText (some "Unauthorized") ∈
      assistHandler ⟨"bot", [5], [7]⟩ (fun _ => none)
        ⟨"group", 99, 42, "@bot hello", []⟩ := by decide

/-- Claim C5 as amended: a private-chat rejection never invokes the core;
a group-chat rejection invokes the core first (its reply is discarded),
then sends "Unauthorized" and possibly leaves the chat. -/
theorem C5_policy_rejection (cfg : BotConfig) (ask : String → Option String)
    (m : TelegramMessage) :
    (m.chat_type = "private" →
        cfg.authorized_user_ids.contains m.from_user_id = false →
        assistHandler cfg ask m = [BotAction.replyText (some "Unauthorized")])
    ∧ (∀ w r, m.chat_type ≠ "private" →
        pyStartsWith m.text ("@" ++ cfg.bot_username) = true →
        pySplitOnce m.text = (w, some r) →
        cfg.allowed_chat_ids.contains m.chat_id = false →
        cfg.authorized_user_ids.contains m.from_user_id = false →
        assistHandler cfg ask m =
          BotAction.askAssistant r ::
            BotAction.replyText (some "Unauthorized") ::
              (if shouldLeaveChat cfg m then [BotAction.leaveChat]
               else [])) := by
  constructor
  · intro h1 h2
    have h2m : m.from_user_id ∉ cfg.authorized_user_ids := by simpa using h2
    simp [assistHandler, h1, h2m]
  · intro w r h1 h2 h3 h4 h5
    have h4m : m.chat_id ∉ cfg.allowed_chat_ids := by simpa using h4
    have h5m : m.from_user_id ∉ cfg.authorized_user_ids := by simpa using h5
    simp [assistHandler, h1, h2, h3, h4m, h5m]

/-- Witness for the amended C5 at concrete rejected messages in a private
and in a group chat. -/
theorem C5_policy_rejection_witness :
    assistHandler ⟨"bot", [5], [7]⟩ (fun _ => none)
        ⟨"private", 1, 42, "hi", []⟩ =
      [BotAction.replyText (some "Unauthorized")]
    ∧ assistHandler ⟨"bot", [5], [7]⟩ (fun _ => none)
        ⟨"group", 99, 42, "@bot hi", [7]⟩ =
      [BotAction.askAssistant "hi",
       BotAction.replyText (some "Unauthorized")] := by
  constructor
  · exact (C5_policy_rejection ⟨"bot", [5], [7]⟩ (fun _ => none)
      ⟨"private", 1, 42, "hi", []⟩).1 rfl (by decide)
  · rw [(C5_policy_rejection ⟨"bot", [5], [7]⟩ (fun _ => none)
      ⟨"group", 99, 42, "@bot hi", [7]⟩).2 "@bot" "hi" (by decide)
      (by decide) (by decide) (by decide) (by decide)]
    decide

/-- Claim C6 is false on the code: in a private chat with an authorized
sender whose query yields no reply, the handler still calls
`message.reply_text` — passing Python `None` — instead of sending nothing. -/
theorem C6_counterexample :
    assistHandler ⟨"bot", [5], [7]⟩ (fun _ => none)
        ⟨"private", 5, 7, "hi", []⟩ =
      [BotAction.askAssistant "hi", BotAction.replyText none] := by decide

/-- Claim C6 as amended: in a private chat with an authorized sender the
router calls the core with the full message text and then calls
`reply_text` unconditionally with the returned value, including when the
core returns no reply (it passes `None` rather than sending nothing). -/
theorem C6_private_relay (cfg : BotConfig) (ask : String → Option String)
    (m : TelegramMessage) (h1 : m.chat_type = "private")
    (h2 : cfg.authorized_user_ids.contains m.from_user_id = true) :
    assistHandler cfg ask m =
      [BotAction.askAssistant m.text, BotAction.replyText (ask m.text)] := by
  have h2m : m.from_user_id ∈ cfg.authorized_user_ids := by simpa using h2
  simp [assistHandler, h1, h2m]

/-- Witness for the amended C6: an authorized private query is forwarded and
its reply relayed. -/
theorem C6_private_relay_witness :
    assistHandler ⟨"bot", [5], [7]⟩ (fun _ => some "pong")
        ⟨"private", 5, 7, "ping", []⟩ =
      [BotAction.askAssistant "ping", BotAction.replyText (some "pong")] :=
  C6_private_relay ⟨"bot", [5], [7]⟩ (fun _ => some "pong")
    ⟨"private", 5, 7, "ping", []⟩ rfl (by decide)

/-- Claim C7 is false on the code: the message `"@bot "` (mention followed
by a single space) splits into `("@bot", "")`, so the core is invoked with
the empty query rather than the message being ignored. -/
theorem C7_counterexample :
    pySplitOnce "@bot " = ("@bot", some "")
    ∧ BotAction.askAssistant "" ∈
      assistHandler ⟨"bot", [5], [7]⟩ (fun _ => none)
        ⟨"group", 5, 7, "@bot ", []⟩ := by decide

/-- Claim C7 as amended: a group mention is ignored only when the text
contains no space at all (`split(' ', 1)` yields one part); whenever a
space occurs, the core is called with the remainder after the first space —
which may be the empty string. -/
theorem C7_mention_strip (cfg : BotConfig) (ask : String → Option String)
    (m : TelegramMessage) (h1 : m.chat_type ≠ "private")
    (h2 : pyStartsWith m.text ("@" ++ cfg.bot_username) = true) :
    ((pySplitOnce m.text).2 = none → assistHandler cfg ask m = [])
    ∧ (∀ r, (pySplitOnce m.text).2 = some r →
        BotAction.askAssistant r ∈ assistHandler cfg ask m) := by
  cases hps : pySplitOnce m.text with
  | mk w o =>
    constructor
    · intro hsp
      change o = none at hsp
      subst hsp
      simp [assistHandler, h1, h2, hps]
    · intro r hsp
      change o = some r at hsp
      subst hsp
      simp [assistHandler, h1, h2, hps]

/-- Witness for the amended C7: `"@bot"` is ignored, while `"@bot "` makes
the core receive the empty query. -/
theorem C7_mention_strip_witness :
    assistHandler ⟨"bot", [5], [7]⟩ (fun _ => none)
        ⟨"group", 5, 7, "@bot", []⟩ = []
    ∧ BotAction.askAssistant "" ∈
      assistHandler ⟨"bot", [5], [7]⟩ (fun _ => none)
        ⟨"group", 5, 7, "@bot ", []⟩ := by
  constructor
  · exact (C7_mention_strip ⟨"bot", [5], [7]⟩ (fun _ => none)
      ⟨"group", 5, 7, "@bot", []⟩ (by decide) (by decide)).1 (by decide)
  · exact (C7_mention_strip ⟨"bot", [5], [7]⟩ (fun _ => none)
      ⟨"group", 5, 7, "@bot ", []⟩ (by decide) (by decide)).2 "" (by decide)

/-- Claim C8 (confirmed): a stream none of whose messages sets the
display-text field makes `assist` return the distinguished "no reply" value
`Except.ok none` — not an error, and not the empty string. -/
theorem C8_no_display_text (s : SampleTextAssistant) (q : String)
    (rs : List AssistResponse)
    (h : ∀ r ∈ rs, r.dialog_state_out.supplemental_display_text = "") :
    (assist s q rs none).result = Except.ok none := by
  rw [assist_result, lastNonEmptyText_eq_none rs h]

/-- Witness for C8 on a concrete one-message stream without display text. -/
theorem C8_no_display_text_witness :
    (assist ⟨"en-US", "m", "d", none, 185⟩ "q" [⟨⟨[3], ""⟩⟩] none).result =
      Except.ok none :=
  C8_no_display_text ⟨"en-US", "m", "d", none, 185⟩ "q" [⟨⟨[3], ""⟩⟩]
    (by decide)

/-- Claim C9 (confirmed): an `assist` call leaves every session field other
than `conversation_state` unchanged — `language_code`, `device_model_id`,
`device_id` and `deadline` keep their construction-time values. -/
theorem C9_frame (s : SampleTextAssistant) (q : String)
    (rs : List AssistResponse) (err : Option StreamError) :
    (assist s q rs err).state.language_code = s.language_code
    ∧ (assist s q rs err).state.device_model_id = s.device_model_id
    ∧ (assist s q rs err).state.device_id = s.device_id
    ∧ (assist s q rs err).state.deadline = s.deadline := by
  rw [assist_state]
  exact ⟨rfl, rfl, rfl, rfl⟩

/-- Claim C10 (confirmed): the group-chat mention test is prefix-based — any
non-private message whose text starts with `'@'` followed by the bot's
handle is handled, even when the mentioned word is a longer handle; the
first space-delimited word is stripped and the remainder is forwarded to
the core. -/
theorem C10_prefix_mention (cfg : BotConfig) (ask : String → Option String)
    (m : TelegramMessage) (w r : String)
    (h1 : m.chat_type ≠ "private")
    (h2 : pyStartsWith m.text ("@" ++ cfg.bot_username) = true)
    (hsp : pySplitOnce m.text = (w, some r)) :
    BotAction.askAssistant r ∈ assistHandler cfg ask m
    ∧ w.toList ++ ' ' :: r.toList = m.text.toList
    ∧ ' ' ∉ w.toList := by
  refine ⟨by simp [assistHandler, h1, h2, hsp], ?_⟩
  unfold pySplitOnce at hsp
  cases hs : splitAtFirstSpace m.text.toList with
  | none =>
    rw [hs] at hsp
    cases hsp
  | some p =>
    rw [hs] at hsp
    simp only [Prod.mk.injEq, Option.some.injEq] at hsp
    obtain ⟨hw, hr⟩ := hsp
    subst hw
    subst hr
    exact splitAtFirstSpace_eq _ _ _ (by rw [hs]; rfl)

/-- Witness for C10 on the longer-handle example: bot `"botname"`, message
`"@botnameX hello"` — the branch triggers and `"hello"` is forwarded. -/
theorem C10_prefix_mention_witness :
    BotAction.askAssistant "hello" ∈
      assistHandler ⟨"botname", [5], [7]⟩ (fun _ => none)
        ⟨"group", 5, 7, "@botnameX hello", []⟩
    ∧ "@botnameX".toList ++ ' ' :: "hello".toList =
      "@botnameX hello".toList
    ∧ ' ' ∉ "@botnameX".toList :=
  C10_prefix_mention ⟨"botname", [5], [7]⟩ (fun _ => none)
    ⟨"group", 5, 7, "@botnameX hello", []⟩ "@botnameX" "hello"
    (by decide) (by decide) (by decide)

end TelegramAssistant
